import Mathlib

/-!
Verification development for the animal-shelter data-access layer.

Shallow embedding of the record store, the query-matching engine and the
aggregation fallbacks of `Artifact_One_animal_shelter_CRUD.py` (the CSV-backed
`AnimalShelter` class) and the demo-mode paths of
`Artifact_Three_animal_shelter_CRUD.py`.

Python scalar values are modelled by `Value`: strings, ints, and floats
(floats are modelled as rationals; scientific notation, infinities, NaN and
underscore digit separators are outside the modelled scope — no record or
query in this development uses them).  Records and queries are association
lists mirroring Python dicts with insertion order.
-/

namespace AnimalShelter

/-- A Python scalar value as stored in a record or used in a query clause. -/
inductive Value where
  | vStr (s : String)
  | vInt (n : ℤ)
  | vRat (q : ℚ)
  | vNone
deriving DecidableEq, Repr

/-- Decimal digits of the fractional part of a nonnegative rational below 1,
with fuel bounding the expansion (Python float reprs are finite decimals). -/
def fracDigitsAux : ℕ → ℚ → String
  | 0, _ => ""
  | n + 1, q =>
    if q = 0 then ""
    else
      let q10 := q * 10
      let d : ℕ := q10.num.toNat / q10.den
      toString d ++ fracDigitsAux n (q10 - (d : ℚ))

/-- Decimal rendering of a nonnegative rational, Python-float style
(always with a fractional part, `52.0`, `30.75`). -/
def ratReprNonneg (q : ℚ) : String :=
  let ip : ℕ := q.num.toNat / q.den
  let f := fracDigitsAux 17 (q - (ip : ℚ))
  toString ip ++ "." ++ (if f = "" then "0" else f)

/-- Python `str()` of a scalar value. -/
def pyStr : Value → String
  | .vStr s => s
  | .vInt n => toString n
  | .vRat q => if q < 0 then "-" ++ ratReprNonneg (-q) else ratReprNonneg q
  | .vNone => "None"

/-- Python `==` between scalar values: ints and floats compare numerically,
everything else by type-and-value. -/
def pyEq : Value → Value → Bool
  | .vStr s, .vStr t => s == t
  | .vInt n, .vInt m => n == m
  | .vRat p, .vRat q => decide (p = q)
  | .vInt n, .vRat q => decide ((n : ℚ) = q)
  | .vRat q, .vInt n => decide (q = (n : ℚ))
  | .vNone, .vNone => true
  | _, _ => false

/-- Interpret a digit string as a natural number. -/
def digitsToNat (cs : List Char) : ℕ :=
  cs.foldl (fun a c => a * 10 + (c.toNat - 48)) 0

/-- Parse an unsigned decimal literal (digits with at most one dot, at least
one digit), Python `float()` string grammar restricted to plain decimals. -/
def parseUnsignedFloat (cs : List Char) : Option ℚ :=
  let intPart := cs.takeWhile Char.isDigit
  let rest := cs.dropWhile Char.isDigit
  match rest with
  | [] => if intPart.isEmpty then none else some (digitsToNat intPart : ℚ)
  | '.' :: rest2 =>
    let fracPart := rest2.takeWhile Char.isDigit
    let rest3 := rest2.dropWhile Char.isDigit
    if rest3.isEmpty && (!intPart.isEmpty || !fracPart.isEmpty) then
      some ((digitsToNat intPart : ℚ) +
        (digitsToNat fracPart : ℚ) / ((10 : ℚ) ^ fracPart.length))
    else none
  | _ => none

/-- Strip leading and trailing whitespace, as Python `float()` does on its
string argument. -/
def trimChars (cs : List Char) : List Char :=
  ((cs.dropWhile Char.isWhitespace).reverse.dropWhile Char.isWhitespace).reverse

/-- Python `float(s)` on a string: strip whitespace, optional sign, plain
decimal form.  `none` models the `ValueError` raised on failure. -/
def parsePyFloatStr (s : String) : Option ℚ :=
  match trimChars s.toList with
  | '-' :: rest => (parseUnsignedFloat rest).map Neg.neg
  | '+' :: rest => parseUnsignedFloat rest
  | cs => parseUnsignedFloat cs

/-- Python `float(v)` on a scalar value; `none` models the raised
`ValueError`/`TypeError` (e.g. `float(None)`). -/
def pyFloat : Value → Option ℚ
  | .vInt n => some (n : ℚ)
  | .vRat q => some q
  | .vStr s => parsePyFloatStr s
  | .vNone => none

/-- Equality of evaluation outcomes is decidable (used to state and check
concrete evaluations of the matcher). -/
instance : DecidableEq (Except Unit Bool) := fun a b =>
  match a, b with
  | .error u, .error v => isTrue (by cases u; cases v; rfl)
  | .ok x, .ok y =>
    if h : x = y then isTrue (by rw [h])
    else isFalse (fun hc => h (Except.ok.inj hc))
  | .ok _, .error _ => isFalse (fun hc => Except.noConfusion hc)
  | .error _, .ok _ => isFalse (fun hc => Except.noConfusion hc)

/-- A record: a Python dict from field name to scalar value, in insertion
order (keys unique in practice; lookup takes the first binding). -/
abbrev Record := List (String × Value)

/-- The argument of a query operator: a scalar or a list (as for `$in`). -/
inductive OpArg where
  | val (v : Value)
  | vlist (vs : List Value)
deriving DecidableEq, Repr

/-- One query clause: a plain value (equality) or an operator mapping. -/
inductive Clause where
  | plain (v : Value)
  | ops (l : List (String × OpArg))
deriving DecidableEq, Repr

/-- A query: a Python dict from field name to clause. -/
abbrev Query := List (String × Clause)

/-- Dict lookup: first binding for the key, if any. -/
def lookup (item : Record) (key : String) : Option Value :=
  (item.find? (fun p => p.1 == key)).map Prod.snd

/-- Python `dict.get(key)`: the bound value, or `None` when absent. -/
def pyGet (item : Record) (key : String) : Value :=
  (lookup item key).getD .vNone

/-- Python `repr()` of a scalar, as used when rendering a list with `str()`. -/
def pyReprValue : Value → String
  | .vStr s => String.singleton (Char.ofNat 39) ++ s ++ String.singleton (Char.ofNat 39)
  | v => pyStr v

/-- Python `str()` of an operator argument (a scalar, or a list rendered
with brackets and comma-separated reprs). -/
def pyStrOpArg : OpArg → String
  | .val v => pyStr v
  | .vlist vs => "[" ++ String.intercalate ", " (vs.map pyReprValue) ++ "]"

/-- The guard from `_filtered_data`:
`isinstance(item[key], (int, float, str)) and str(item[key]).replace('.', '').isdigit()`. -/
def isdigitGuard : Value → Bool
  | .vNone => false
  | v =>
    let cs := (pyStr v).toList.filter (fun c => c != '.')
    !cs.isEmpty && cs.all Char.isDigit

/-- Coercion of the record value in a `$gte`/`$lte` clause:
`float(item[key]) if <guard> else 0`; `none` models the raised error
(caught by the surrounding `try`, which turns it into non-match). -/
def coerceItemVal (v : Value) : Option ℚ :=
  if isdigitGuard v then pyFloat v else some 0

/-- Coercion of the operator bound: `float(op_value)`; `none` models the
raised error (caught into non-match). -/
def coerceBound : OpArg → Option ℚ
  | .val v => pyFloat v
  | .vlist _ => none

/-- Python `x in y` for the `$in` operator: membership for a list operand,
substring for a string operand with a string item, `TypeError` otherwise
(`.error` models the uncaught exception). -/
def pyContains (x : Value) : OpArg → Except Unit Bool
  | .vlist vs => .ok (vs.any (fun v => pyEq x v))
  | .val (.vStr t) =>
    match x with
    | .vStr s => .ok (decide (s.toList <:+: t.toList))
    | _ => .error ()
  | .val _ => .error ()

/-- One operator check of `_filtered_data`'s inner loop: does the record
value pass this operator?  `.error` models an uncaught exception. -/
def evalOp (x : Value) (op : String) (arg : OpArg) : Except Unit Bool :=
  if op == "$in" then
    pyContains x arg
  else if op == "$gte" then
    .ok (match coerceItemVal x, coerceBound arg with
      | some a, some b => decide (b ≤ a)
      | _, _ => false)
  else if op == "$lte" then
    .ok (match coerceItemVal x, coerceBound arg with
      | some a, some b => decide (a ≤ b)
      | _, _ => false)
  else
    .ok (pyStr x == pyStrOpArg arg)

/-- `_filtered_data`'s inner operator loop: operators are checked in order;
the first failing operator breaks the loop with non-match. -/
def evalOps (x : Value) : List (String × OpArg) → Except Unit Bool
  | [] => .ok true
  | (op, arg) :: rest => do
    let b ← evalOp x op arg
    if b then evalOps x rest else pure false

/-- `_filtered_data`'s outer clause loop.  `acc` is the running `match` flag.
A missing key or a failed plain-equality clause breaks the loop; a failed
operator clause only clears the flag and the loop continues (so a later
clause can still raise). -/
def matchClauses (item : Record) : Query → Bool → Except Unit Bool
  | [], acc => .ok acc
  | (key, c) :: rest, acc =>
    match lookup item key with
    | none => .ok false
    | some x =>
      match c with
      | .plain v =>
        if pyStr x == pyStr v then matchClauses item rest acc else .ok false
      | .ops l => do
        let b ← evalOps x l
        matchClauses item rest (acc && b)

/-- `_filtered_data`: keep, in order, the records whose clause loop ends with
the `match` flag set; an exception aborts the whole scan. -/
def filteredData : List Record → Query → Except Unit (List Record)
  | [], _ => .ok []
  | item :: rest, q => do
    let b ← matchClauses item q true
    let tail ← filteredData rest q
    pure (if b then item :: tail else tail)

/-- `read`: `_filtered_data` inside a `try`; any exception yields `[]`. -/
def read1 (data : List Record) (q : Query) : List Record :=
  match filteredData data q with
  | .ok l => l
  | .error _ => []

/-- `_item_matches_query`, the matcher used by `update` and `delete`:
`key not in item or item[key] != value` rejects; the clause value is compared
raw with Python equality, so an operator mapping never equals a scalar. -/
def itemMatchesQuery (item : Record) (q : Query) : Bool :=
  q.all (fun kc =>
    match lookup item kc.1 with
    | none => false
    | some x =>
      match kc.2 with
      | .plain v => pyEq x v
      | .ops _ => false)

/-- Python `dict.update(patch)`: existing keys are overwritten in place,
new keys are appended in patch order. -/
def applyPatch (item : Record) (patch : Record) : Record :=
  patch.foldl
    (fun it kv =>
      if it.any (fun p => p.1 == kv.1) then
        it.map (fun p => if p.1 == kv.1 then kv else p)
      else it ++ [kv])
    item

/-- `update`: scan in order; patch each matching record and count it;
with `multiple = false` stop after the first match.  Returns the new
collection and `updated_count`. -/
def update1 : List Record → Query → Record → Bool → List Record × ℕ
  | [], _, _, _ => ([], 0)
  | item :: rest, q, patch, multiple =>
    if itemMatchesQuery item q then
      if multiple then
        let (rest2, n) := update1 rest q patch multiple
        (applyPatch item patch :: rest2, n + 1)
      else (applyPatch item patch :: rest, 1)
    else
      let (rest2, n) := update1 rest q patch multiple
      (item :: rest2, n)

/-- `delete`: partition the collection by the matcher and count removals.
In the source, the branch on `multiple` executes `continue` on both arms,
so every match is removed whatever `multiple` is; the parameter is kept to
mirror the signature.  Returns the kept records and `deleted_count`. -/
def delete1 : List Record → Query → Bool → List Record × ℕ
  | [], _, _ => ([], 0)
  | item :: rest, q, multiple =>
    let (rest2, n) := delete1 rest q multiple
    if itemMatchesQuery item q then (rest2, n + 1)
    else (item :: rest2, n)

/-- Water-rescue breed allow-list from `_count_water_rescue_dogs`. -/
def waterBreeds : List String :=
  ["Labrador Retriever Mix", "Chesapeake Bay Retriever", "Newfoundland"]

/-- Wilderness-rescue breed allow-list from `_count_wilderness_rescue_dogs`. -/
def wildernessBreeds : List String :=
  ["German Shepherd", "Alaskan Malamute", "Old English Sheepdog",
   "Siberian Husky", "Rottweiler"]

/-- Disaster-rescue breed allow-list from `_count_disaster_rescue_dogs`. -/
def disasterBreeds : List String :=
  ["Doberman Pinscher", "German Shepherd", "Golden Retriever",
   "Bloodhound", "Rottweiler"]

/-- The breed/type/sex test shared by the rescue counters:
`item.get('animal_type') == 'Dog' and item.get('breed') in breeds and
item.get('sex_upon_outcome') == sex`. -/
def rescueBase (item : Record) (breeds : List String) (sex : String) : Bool :=
  pyEq (pyGet item "animal_type") (.vStr "Dog") &&
  breeds.any (fun b => pyEq (pyGet item "breed") (.vStr b)) &&
  pyEq (pyGet item "sex_upon_outcome") (.vStr sex)

/-- `_count_water_rescue_dogs`'s breed/sex gate. -/
def isWaterBase (item : Record) : Bool :=
  rescueBase item waterBreeds "Intact Female"

/-- `_count_wilderness_rescue_dogs`'s breed/sex gate. -/
def isWildernessBase (item : Record) : Bool :=
  rescueBase item wildernessBreeds "Intact Male"

/-- `_count_disaster_rescue_dogs`'s breed/sex gate. -/
def isDisasterBase (item : Record) : Bool :=
  rescueBase item disasterBreeds "Intact Male"

/-- The age test shared by the rescue counters: a missing or `None` age
counts; a present age counts iff `float(age)` succeeds and lies in
`[lo, hi]`; a present age whose coercion raises is skipped. -/
def rescueAgeContribution (item : Record) (lo hi : ℚ) : ℕ :=
  match pyGet item "age_upon_outcome_in_weeks" with
  | .vNone => 1
  | v =>
    match pyFloat v with
    | some a => if lo ≤ a ∧ a ≤ hi then 1 else 0
    | none => 0

/-- `_count_water_rescue_dogs`: loop over the data incrementing `count`. -/
def countWaterRescueDogs : List Record → ℕ
  | [] => 0
  | item :: rest =>
    (if isWaterBase item then rescueAgeContribution item 26 156 else 0) +
      countWaterRescueDogs rest

/-- `_count_wilderness_rescue_dogs`: same loop, its breeds/sex, ages 26-156. -/
def countWildernessRescueDogs : List Record → ℕ
  | [] => 0
  | item :: rest =>
    (if isWildernessBase item then rescueAgeContribution item 26 156 else 0) +
      countWildernessRescueDogs rest

/-- `_count_disaster_rescue_dogs`: same loop, its breeds/sex, ages 20-300. -/
def countDisasterRescueDogs : List Record → ℕ
  | [] => 0
  | item :: rest =>
    (if isDisasterBase item then rescueAgeContribution item 20 300 else 0) +
      countDisasterRescueDogs rest

/-!
Demo-mode (`connection_successful = False`) paths of
`Artifact_Three_animal_shelter_CRUD.py`.  Only the unavailable-store
behavior is embedded; the live paths delegate to the external MongoDB
collaborator, which is out of engine scope.
-/

/-- The canned dataset returned by `read_without_auth` in demo mode. -/
def mockData : List Record :=
  [[("animal_id", .vStr "A001"), ("animal_type", .vStr "Dog"),
    ("breed", .vStr "Labrador Retriever Mix"),
    ("age_upon_outcome_in_weeks", .vInt 52), ("outcome_type", .vStr "Adoption"),
    ("sex_upon_outcome", .vStr "Intact Female"), ("name", .vStr "Buddy"),
    ("location_lat", .vRat 30.75), ("location_long", .vRat (-97.48))],
   [("animal_id", .vStr "A002"), ("animal_type", .vStr "Dog"),
    ("breed", .vStr "Chesapeake Bay Retriever"),
    ("age_upon_outcome_in_weeks", .vInt 60), ("outcome_type", .vStr "Adoption"),
    ("sex_upon_outcome", .vStr "Intact Female"), ("name", .vStr "Sadie"),
    ("location_lat", .vRat 30.76), ("location_long", .vRat (-97.49))],
   [("animal_id", .vStr "A003"), ("animal_type", .vStr "Dog"),
    ("breed", .vStr "Newfoundland"),
    ("age_upon_outcome_in_weeks", .vInt 80), ("outcome_type", .vStr "Transfer"),
    ("sex_upon_outcome", .vStr "Intact Female"), ("name", .vStr "Molly"),
    ("location_lat", .vRat 30.74), ("location_long", .vRat (-97.47))],
   [("animal_id", .vStr "A004"), ("animal_type", .vStr "Dog"),
    ("breed", .vStr "German Shepherd"),
    ("age_upon_outcome_in_weeks", .vInt 48), ("outcome_type", .vStr "Adoption"),
    ("sex_upon_outcome", .vStr "Intact Male"), ("name", .vStr "Max"),
    ("location_lat", .vRat 30.77), ("location_long", .vRat (-97.50))],
   [("animal_id", .vStr "A005"), ("animal_type", .vStr "Dog"),
    ("breed", .vStr "Alaskan Malamute"),
    ("age_upon_outcome_in_weeks", .vInt 55), ("outcome_type", .vStr "Adoption"),
    ("sex_upon_outcome", .vStr "Intact Male"), ("name", .vStr "Duke"),
    ("location_lat", .vRat 30.73), ("location_long", .vRat (-97.46))],
   [("animal_id", .vStr "A006"), ("animal_type", .vStr "Cat"),
    ("breed", .vStr "Siamese"),
    ("age_upon_outcome_in_weeks", .vInt 26), ("outcome_type", .vStr "Transfer"),
    ("sex_upon_outcome", .vStr "Spayed Female"), ("name", .vStr "Whiskers"),
    ("location_lat", .vRat 30.78), ("location_long", .vRat (-97.51))],
   [("animal_id", .vStr "A007"), ("animal_type", .vStr "Dog"),
    ("breed", .vStr "Golden Retriever"),
    ("age_upon_outcome_in_weeks", .vInt 45),
    ("outcome_type", .vStr "Return to Owner"),
    ("sex_upon_outcome", .vStr "Neutered Male"), ("name", .vStr "Charlie"),
    ("location_lat", .vRat 30.72), ("location_long", .vRat (-97.45))]]

/-- `read_without_auth` when the connection failed: the mock list is
returned before the query is ever inspected. -/
def readWithoutAuthDemo (_query : Query) : List Record :=
  mockData

/-- `read` when the connection failed: delegates to `read_without_auth`
(the username plays no role on this path). -/
def read3Demo (query : Query) (_username : String) : List Record :=
  readWithoutAuthDemo query

/-- `_get_mock_breed_performance`'s fixed payload. -/
def mockBreedPerformance : List Record :=
  [[("breed", .vStr "Labrador Retriever Mix"), ("total_animals", .vInt 45),
    ("adoption_count", .vInt 38), ("adoption_rate", .vRat 84.4),
    ("success_rate", .vRat 91.1)],
   [("breed", .vStr "German Shepherd"), ("total_animals", .vInt 32),
    ("adoption_count", .vInt 25), ("adoption_rate", .vRat 78.1),
    ("success_rate", .vRat 87.5)],
   [("breed", .vStr "Golden Retriever"), ("total_animals", .vInt 28),
    ("adoption_count", .vInt 24), ("adoption_rate", .vRat 85.7),
    ("success_rate", .vRat 92.8)],
   [("breed", .vStr "Bulldog"), ("total_animals", .vInt 22),
    ("adoption_count", .vInt 16), ("adoption_rate", .vRat 72.7),
    ("success_rate", .vRat 81.8)],
   [("breed", .vStr "Beagle"), ("total_animals", .vInt 35),
    ("adoption_count", .vInt 28), ("adoption_rate", .vRat 80.0),
    ("success_rate", .vRat 88.6)]]

/-- One rescue class in the analytics payload: total plus per-breed rows. -/
structure RescueGroup where
  total : ℕ
  breakdown : List Record
deriving DecidableEq, Repr

/-- The rescue-type analytics payload shape. -/
structure RescueAnalytics where
  water_rescue : RescueGroup
  wilderness_rescue : RescueGroup
  disaster_rescue : RescueGroup
deriving DecidableEq, Repr

/-- `_get_mock_rescue_analytics`'s fixed payload. -/
def mockRescueAnalytics : RescueAnalytics :=
  { water_rescue :=
      { total := 25,
        breakdown :=
          [[("_id", .vStr "Labrador Retriever Mix"), ("count", .vInt 12),
            ("avg_age_weeks", .vRat 45.2)],
           [("_id", .vStr "Chesapeake Bay Retriever"), ("count", .vInt 8),
            ("avg_age_weeks", .vRat 52.7)],
           [("_id", .vStr "Newfoundland"), ("count", .vInt 5),
            ("avg_age_weeks", .vRat 61.3)]] },
    wilderness_rescue :=
      { total := 18,
        breakdown :=
          [[("_id", .vStr "German Shepherd"), ("count", .vInt 6),
            ("avg_age_weeks", .vRat 48.5)],
           [("_id", .vStr "Alaskan Malamute"), ("count", .vInt 5),
            ("avg_age_weeks", .vRat 55.2)],
           [("_id", .vStr "Siberian Husky"), ("count", .vInt 4),
            ("avg_age_weeks", .vRat 42.8)],
           [("_id", .vStr "Rottweiler"), ("count", .vInt 3),
            ("avg_age_weeks", .vRat 50.1)]] },
    disaster_rescue :=
      { total := 32,
        breakdown :=
          [[("_id", .vStr "Doberman Pinscher"), ("count", .vInt 8),
            ("avg_age_weeks", .vRat 47.3)],
           [("_id", .vStr "German Shepherd"), ("count", .vInt 7),
            ("avg_age_weeks", .vRat 49.2)],
           [("_id", .vStr "Golden Retriever"), ("count", .vInt 9),
            ("avg_age_weeks", .vRat 43.7)],
           [("_id", .vStr "Bloodhound"), ("count", .vInt 5),
            ("avg_age_weeks", .vRat 58.4)],
           [("_id", .vStr "Rottweiler"), ("count", .vInt 3),
            ("avg_age_weeks", .vRat 51.6)]] } }

/-- `_get_mock_adoption_trends`'s fixed payload. -/
def mockAdoptionTrends : List Record :=
  [[("year", .vInt 2024), ("month", .vInt 10), ("adoption_count", .vInt 62),
    ("dog_adoptions", .vInt 38), ("cat_adoptions", .vInt 22)],
   [("year", .vInt 2024), ("month", .vInt 9), ("adoption_count", .vInt 58),
    ("dog_adoptions", .vInt 36), ("cat_adoptions", .vInt 20)],
   [("year", .vInt 2024), ("month", .vInt 8), ("adoption_count", .vInt 65),
    ("dog_adoptions", .vInt 40), ("cat_adoptions", .vInt 23)],
   [("year", .vInt 2024), ("month", .vInt 7), ("adoption_count", .vInt 60),
    ("dog_adoptions", .vInt 38), ("cat_adoptions", .vInt 20)],
   [("year", .vInt 2024), ("month", .vInt 6), ("adoption_count", .vInt 58),
    ("dog_adoptions", .vInt 36), ("cat_adoptions", .vInt 20)],
   [("year", .vInt 2024), ("month", .vInt 5), ("adoption_count", .vInt 60),
    ("dog_adoptions", .vInt 38), ("cat_adoptions", .vInt 20)]]

/-- `_get_mock_demographics`'s fixed payload. -/
def mockDemographics : List Record :=
  [[("animal_type", .vStr "Dog"), ("total_count", .vInt 65),
    ("avg_age_weeks", .vRat 45.2)],
   [("animal_type", .vStr "Cat"), ("total_count", .vInt 35),
    ("avg_age_weeks", .vRat 32.7)],
   [("animal_type", .vStr "Bird"), ("total_count", .vInt 12),
    ("avg_age_weeks", .vRat 28.3)],
   [("animal_type", .vStr "Other"), ("total_count", .vInt 8),
    ("avg_age_weeks", .vRat 36.5)]]

/-- `get_breed_performance_metrics` with no connection: the mock payload. -/
def getBreedPerformanceMetricsDemo : List Record :=
  mockBreedPerformance

/-- `get_rescue_type_analytics` with no connection: the mock payload. -/
def getRescueTypeAnalyticsDemo : RescueAnalytics :=
  mockRescueAnalytics

/-- `get_monthly_adoption_trends` with no connection: the mock payload is
returned before `months` is ever used (source default is 12). -/
def getMonthlyAdoptionTrendsDemo (_months : ℕ) : List Record :=
  mockAdoptionTrends

/-- `get_animal_demographics` with no connection: the mock payload. -/
def getAnimalDemographicsDemo : List Record :=
  mockDemographics

/-!
Concrete records used in scenario checks and counterexamples.
-/

/-- A Labrador Retriever Mix, Intact Female, 200 weeks old. -/
def waterDog200 : Record :=
  [("animal_type", .vStr "Dog"), ("breed", .vStr "Labrador Retriever Mix"),
   ("sex_upon_outcome", .vStr "Intact Female"),
   ("age_upon_outcome_in_weeks", .vInt 200)]

/-- A Labrador Retriever Mix, Intact Female, 52 weeks old. -/
def waterDog52 : Record :=
  [("animal_type", .vStr "Dog"), ("breed", .vStr "Labrador Retriever Mix"),
   ("sex_upon_outcome", .vStr "Intact Female"),
   ("age_upon_outcome_in_weeks", .vInt 52)]

/-- A water-rescue candidate with no age field at all. -/
def waterDogNoAge : Record :=
  [("animal_type", .vStr "Dog"), ("breed", .vStr "Newfoundland"),
   ("sex_upon_outcome", .vStr "Intact Female")]

/-- A water-rescue candidate whose age field is present but unparseable. -/
def waterDogBadAge : Record :=
  waterDogNoAge ++ [("age_upon_outcome_in_weeks", .vStr "unknown")]

/-- A disaster-rescue candidate with no age field at all. -/
def disasterDogNoAge : Record :=
  [("animal_type", .vStr "Dog"), ("breed", .vStr "Bloodhound"),
   ("sex_upon_outcome", .vStr "Intact Male")]

/-- A disaster-rescue candidate whose age field is present but unparseable. -/
def disasterDogBadAge : Record :=
  disasterDogNoAge ++ [("age_upon_outcome_in_weeks", .vStr "unknown")]

/-!
Helper lemmas shared by the claim theorems.
-/

/-- `evalOp` applied to the `$gte` operator key, unfolded. -/
theorem evalOp_gte (x : Value) (arg : OpArg) :
    evalOp x "$gte" arg =
      .ok (match coerceItemVal x, coerceBound arg with
        | some a, some b => decide (b ≤ a)
        | _, _ => false) := rfl

/-- `evalOp` applied to the `$lte` operator key, unfolded. -/
theorem evalOp_lte (x : Value) (arg : OpArg) :
    evalOp x "$lte" arg =
      .ok (match coerceItemVal x, coerceBound arg with
        | some a, some b => decide (a ≤ b)
        | _, _ => false) := rfl

/-- The contribution of one record to a rescue counter's age check, as an
indicator of the age-window condition. -/
theorem rescueAgeContribution_eq_if (item : Record) (lo hi : ℚ) :
    rescueAgeContribution item lo hi =
      if (match pyGet item "age_upon_outcome_in_weeks" with
          | Value.vNone => true
          | v =>
            match pyFloat v with
            | some a => decide (lo ≤ a ∧ a ≤ hi)
            | none => false) then 1 else 0 := by
  unfold rescueAgeContribution
  cases hv : pyGet item "age_upon_outcome_in_weeks" with
  | vNone => rfl
  | vStr s =>
    cases hf : pyFloat (Value.vStr s) with
    | none => simp [hf]
    | some a => by_cases hr : lo ≤ a ∧ a ≤ hi <;> simp [hf, hr]
  | vInt n =>
    cases hf : pyFloat (Value.vInt n) with
    | none => simp [hf]
    | some a => by_cases hr : lo ≤ a ∧ a ≤ hi <;> simp [hf, hr]
  | vRat q =>
    cases hf : pyFloat (Value.vRat q) with
    | none => simp [hf]
    | some a => by_cases hr : lo ≤ a ∧ a ≤ hi <;> simp [hf, hr]

/-- C2: when a clause carries several operator keys, the operator loop does
not stop at the first one — it accepts exactly when every operator check in
the clause passes (a short-circuit conjunction over the operator keys). -/
theorem C2_operator_mapping_conjunctive (x : Value) (l : List (String × OpArg)) :
    evalOps x l = .ok true ↔ ∀ p ∈ l, evalOp x p.1 p.2 = .ok true := by
  induction l with
  | nil => simp [evalOps]
  | cons hd tl ih =>
    obtain ⟨op, arg⟩ := hd
    constructor
    · intro h
      rcases he : evalOp x op arg with u | b
      · rw [evalOps, he] at h
        exact absurd h (by simp [Bind.bind, Except.bind])
      · rcases b with _ | _
        · rw [evalOps, he] at h
          exact absurd h (by simp [Bind.bind, Except.bind, pure, Except.pure])
        · intro p hp
          rcases List.mem_cons.mp hp with rfl | hp
          · exact he
          · rw [evalOps, he] at h
            exact ih.mp (by simpa [Bind.bind, Except.bind] using h) p hp
    · intro h
      have he : evalOp x op arg = .ok true := h (op, arg) (by simp)
      rw [evalOps, he]
      simpa [Bind.bind, Except.bind] using ih.mpr (fun p hp => h p (by simp [hp]))

/-- `delete` keeps exactly the non-matching records and counts the matching
ones, for either value of `multiple`. -/
theorem delete1_spec (data : List Record) (q : Query) (m : Bool) :
    delete1 data q m =
      (data.filter (fun r => !(itemMatchesQuery r q)),
       data.countP (fun r => itemMatchesQuery r q)) := by
  induction data with
  | nil => rfl
  | cons item rest ih =>
    rw [delete1, ih]
    by_cases h : itemMatchesQuery item q
    · simp [h, List.countP_cons]
    · simp [h, List.countP_cons]

/-- `update` with `multiple = true` patches every matching record in place
and counts them. -/
theorem update1_true_spec (data : List Record) (q : Query) (patch : Record) :
    update1 data q patch true =
      (data.map (fun r => if itemMatchesQuery r q then applyPatch r patch else r),
       data.countP (fun r => itemMatchesQuery r q)) := by
  induction data with
  | nil => rfl
  | cons item rest ih =>
    rw [update1, ih]
    by_cases h : itemMatchesQuery item q
    · simp [h, List.countP_cons]
    · simp [h, List.countP_cons]

/-- `update` with `multiple = false` counts one exactly when some record
matches. -/
theorem update1_false_count (data : List Record) (q : Query) (patch : Record) :
    (update1 data q patch false).2 =
      if data.any (fun r => itemMatchesQuery r q) then 1 else 0 := by
  induction data with
  | nil => rfl
  | cons item rest ih =>
    rw [update1]
    by_cases h : itemMatchesQuery item q
    · simp [h]
    · simp only [h, if_false, Bool.false_eq_true]
      simpa [h] using ih

/-- `update` with `multiple = false` patches exactly the first matching
record and leaves the rest of the collection untouched. -/
theorem update1_false_list (data : List Record) (q : Query) (patch : Record) :
    (update1 data q patch false).1 =
      match data.dropWhile (fun r => !(itemMatchesQuery r q)) with
      | [] => data
      | m :: post =>
        data.takeWhile (fun r => !(itemMatchesQuery r q)) ++
          applyPatch m patch :: post := by
  induction data with
  | nil => rfl
  | cons item rest ih =>
    rw [update1]
    by_cases h : itemMatchesQuery item q
    · simp [h, List.dropWhile, List.takeWhile]
    · simp only [h, if_false, Bool.false_eq_true]
      rw [List.dropWhile, List.takeWhile]
      simp only [h, Bool.not_false, if_true]
      rcases hd : rest.dropWhile (fun r => !(itemMatchesQuery r q)) with _ | ⟨m, post⟩
      · simp only [hd] at ih
        simp [ih]
      · simp only [hd] at ih
        simp [ih]

/-- The strict matcher of `update`/`delete` accepts exactly when every
clause's key is present and its raw value is Python-equal to the record
value; an operator mapping never matches. -/
theorem itemMatchesQuery_iff (item : Record) (q : Query) :
    itemMatchesQuery item q = true ↔
      ∀ kc ∈ q, ∃ x, lookup item kc.1 = some x ∧
        match kc.2 with
        | Clause.plain v => pyEq x v = true
        | Clause.ops _ => False := by
  rw [itemMatchesQuery, List.all_eq_true]
  refine forall₂_congr (fun kc _ => ?_)
  rcases hl : lookup item kc.1 with _ | x
  · simp [hl]
  · rcases kc.2 with v | l
    · simp [hl]
    · simp [hl]

/-!
Claim theorems.
-/

/-- C1: on a store holding two identical matching records, `delete` with
`multiple = false` removes BOTH matches and returns 2, not just the first
match with a count of 1 — the `multiple` branch is dead code (`continue` on
both arms), so single-delete behaves like delete-many. -/
theorem C1_delete_deletes_all_matches :
    delete1 [[("x", Value.vStr "1")], [("x", Value.vStr "1")]]
        [("x", Clause.plain (Value.vStr "1"))] false = ([], 2) := by
  decide

/-- C2 counterexample: for the record `f = 10` and the clause
`f : ($gte 1, $lte 5)`, first-wins semantics would keep the record (only
`$gte 1` honored, and 10 >= 1), but the engine drops it; removing the
second operator key changes the outcome, so the remaining operator keys do
affect matching. -/
theorem C2_first_wins_counterexample :
    read1 [[("f", Value.vInt 10)]]
        [("f", Clause.ops
          [("$gte", OpArg.val (Value.vInt 1)), ("$lte", OpArg.val (Value.vInt 5))])]
      = [] ∧
    read1 [[("f", Value.vInt 10)]]
        [("f", Clause.ops [("$gte", OpArg.val (Value.vInt 1))])]
      = [[("f", Value.vInt 10)]] := by
  decide

/-- C2 witness. -/
theorem C2_operator_mapping_conjunctive_witness :
    evalOps (Value.vInt 10) [("$gte", OpArg.val (Value.vInt 1))] = .ok true :=
  (C2_operator_mapping_conjunctive (Value.vInt 10)
    [("$gte", OpArg.val (Value.vInt 1))]).mpr (by decide)

/-- C3 counterexample: the record `age = 5` (an int) is returned by `read`
for the query `age : "5"` (string-normalized equality), but the same query
neither updates nor deletes it, because `update`/`delete` match with strict
Python equality through `_item_matches_query`. -/
theorem C3_read_matcher_divergence_counterexample :
    read1 [[("age", Value.vInt 5)]] [("age", Clause.plain (Value.vStr "5"))]
      = [[("age", Value.vInt 5)]] ∧
    update1 [[("age", Value.vInt 5)]] [("age", Clause.plain (Value.vStr "5"))]
        [("name", Value.vStr "x")] false
      = ([[("age", Value.vInt 5)]], 0) ∧
    delete1 [[("age", Value.vInt 5)]] [("age", Clause.plain (Value.vStr "5"))] false
      = ([[("age", Value.vInt 5)]], 0) := by
  refine ⟨by decide, by decide, by decide⟩

/-- C3 (amended): `update` and `delete` share one matcher — strict Python
equality of each clause's raw value against the record value, with operator
mappings never matching — and both count exactly the records that matcher
accepts; this matcher is not `read`'s string-normalized, operator-aware
one. -/
theorem C3_update_delete_shared_strict_matcher
    (item : Record) (q : Query) (data : List Record) (patch : Record) :
    (itemMatchesQuery item q = true ↔
      ∀ kc ∈ q, ∃ x, lookup item kc.1 = some x ∧
        match kc.2 with
        | Clause.plain v => pyEq x v = true
        | Clause.ops _ => False) ∧
    (delete1 data q true).2 = data.countP (fun r => itemMatchesQuery r q) ∧
    (delete1 data q false).2 = data.countP (fun r => itemMatchesQuery r q) ∧
    (update1 data q patch true).2 = data.countP (fun r => itemMatchesQuery r q) :=
  ⟨itemMatchesQuery_iff item q,
   by rw [delete1_spec],
   by rw [delete1_spec],
   by rw [update1_true_spec]⟩

/-- C3 witness. -/
theorem C3_update_delete_shared_strict_matcher_witness :
    (delete1 [[("a", Value.vInt 1)]] [("a", Clause.plain (Value.vInt 1))] true).2 =
      List.countP
        (fun r => itemMatchesQuery r [("a", Clause.plain (Value.vInt 1))])
        [[("a", Value.vInt 1)]] :=
  (C3_update_delete_shared_strict_matcher [] [("a", Clause.plain (Value.vInt 1))]
    [[("a", Value.vInt 1)]] []).2.1

/-- C4 counterexample: in demo mode, the first canned record (a Dog) is in
the result of `read` for the query `animal_type = Cat`, even though the
Predicate Matcher rejects it — the canned dataset is not filtered. -/
theorem C4_demo_read_unfiltered_counterexample :
    (mockData.headD []) ∈
      read3Demo [("animal_type", Clause.plain (Value.vStr "Cat"))] "user" ∧
    matchClauses (mockData.headD [])
        [("animal_type", Clause.plain (Value.vStr "Cat"))] true = .ok false :=
  ⟨List.mem_cons_self _ _, by decide⟩

/-- C4 (amended): when the backing store is unavailable, `read` returns the
Fallback Provider's canned dataset whole, for every query and caller — the
query is never consulted, so no Predicate-Matcher filtering occurs. -/
theorem C4_demo_read_returns_full_mock (q : Query) (u : String) :
    read3Demo q u = mockData := rfl

/-- C5 counterexample: the record `age = "abc"` — whose value fails numeric
coercion — is RETURNED for the query `age : ($lte 5)`: the bad coercion
degrades to comparing 0 <= 5, a match, not to non-match. -/
theorem C5_bad_coercion_match_counterexample :
    read1 [[("age", Value.vStr "abc")]]
        [("age", Clause.ops [("$lte", OpArg.val (Value.vInt 5))])]
      = [[("age", Value.vStr "abc")]] := by
  decide

/-- C5 (amended): evaluation never raises in the cited cases — a missing
field short-circuits the clause loop to non-match whatever the clause and
the remaining query, and a bound that fails coercion makes the `$gte`/`$lte`
check false without error — but a record value that fails the digit guard is
coerced to 0 and compared (it does not force non-match). -/
theorem C5_no_raise_degradation :
    (∀ (item : Record) (key : String) (c : Clause) (rest : Query) (acc : Bool),
      lookup item key = none →
        matchClauses item ((key, c) :: rest) acc = .ok false) ∧
    (∀ (x : Value) (arg : OpArg), coerceBound arg = none →
      evalOp x "$gte" arg = .ok false ∧ evalOp x "$lte" arg = .ok false) ∧
    (∀ v : Value, isdigitGuard v = false → coerceItemVal v = some 0) := by
  refine ⟨fun item key c rest acc h => ?_, fun x arg h => ⟨?_, ?_⟩, fun v h => ?_⟩
  · simp [matchClauses, h]
  · rw [evalOp_gte]
    cases hc : coerceItemVal x <;> simp [h, hc]
  · rw [evalOp_lte]
    cases hc : coerceItemVal x <;> simp [h, hc]
  · simp [coerceItemVal, h]

/-- C5 witness. -/
theorem C5_no_raise_degradation_witness :
    matchClauses [] [("k", Clause.plain (Value.vInt 0))] true = .ok false ∧
    evalOp (Value.vInt 3) "$gte" (OpArg.val (Value.vStr "x")) = .ok false ∧
    coerceItemVal (Value.vStr "abc") = some 0 :=
  ⟨C5_no_raise_degradation.1 [] "k" (Clause.plain (Value.vInt 0)) [] true rfl,
   (C5_no_raise_degradation.2.1 (Value.vInt 3)
     (OpArg.val (Value.vStr "x")) (by decide)).1,
   C5_no_raise_degradation.2.2 (Value.vStr "abc") (by decide)⟩

/-- C6 counterexample: `"-3"` IS a parseable number (`float("-3")`
succeeds), yet under the query `age : ($lte -1)` the record `age = "-3"` is
NOT returned: the digit guard rejects the minus sign, so the value is
compared as 0, not by its numeric value -3. -/
theorem C6_negative_number_counterexample :
    parsePyFloatStr "-3" = some (-3) ∧
    read1 [[("age", Value.vStr "-3")]]
        [("age", Clause.ops [("$lte", OpArg.val (Value.vInt (-1)))])]
      = [] := by
  refine ⟨by decide, by decide⟩

/-- C6 (amended): in a `$gte`/`$lte` clause the record value is coerced
through the digit guard — a value failing the guard (including every
negative form) is compared as 0; a value passing the guard is compared by
its parsed numeric value when `float` succeeds and yields non-match when it
still fails (multi-dot strings); a bound that fails coercion yields
non-match. -/
theorem C6_guarded_numeric_coercion (v : Value) (arg : OpArg) (a b : ℚ) :
    (isdigitGuard v = false → coerceBound arg = some b →
      evalOp v "$lte" arg = .ok (decide ((0 : ℚ) ≤ b)) ∧
      evalOp v "$gte" arg = .ok (decide (b ≤ (0 : ℚ)))) ∧
    (isdigitGuard v = true → pyFloat v = some a → coerceBound arg = some b →
      evalOp v "$lte" arg = .ok (decide (a ≤ b)) ∧
      evalOp v "$gte" arg = .ok (decide (b ≤ a))) ∧
    (isdigitGuard v = true → pyFloat v = none →
      evalOp v "$lte" arg = .ok false ∧ evalOp v "$gte" arg = .ok false) ∧
    (coerceBound arg = none →
      evalOp v "$lte" arg = .ok false ∧ evalOp v "$gte" arg = .ok false) := by
  refine ⟨fun hg hb => ⟨?_, ?_⟩, fun hg hf hb => ⟨?_, ?_⟩,
    fun hg hf => ⟨?_, ?_⟩, fun hb => ⟨?_, ?_⟩⟩
  · rw [evalOp_lte]; simp [coerceItemVal, hg, hb]
  · rw [evalOp_gte]; simp [coerceItemVal, hg, hb]
  · rw [evalOp_lte]; simp [coerceItemVal, hg, hf, hb]
  · rw [evalOp_gte]; simp [coerceItemVal, hg, hf, hb]
  · rw [evalOp_lte]; simp [coerceItemVal, hg, hf]
  · rw [evalOp_gte]; simp [coerceItemVal, hg, hf]
  · rw [evalOp_lte]
    cases hc : coerceItemVal v <;> simp [hb, hc]
  · rw [evalOp_gte]
    cases hc : coerceItemVal v <;> simp [hb, hc]

/-- C6 witness. -/
theorem C6_guarded_numeric_coercion_witness :
    evalOp (Value.vStr "-3") "$lte" (OpArg.val (Value.vInt (-1))) = .ok false := by
  have h := (C6_guarded_numeric_coercion (Value.vStr "-3")
    (OpArg.val (Value.vInt (-1))) 0 (-1)).1 (by decide) (by decide)
  rw [h.1]
  decide

/-- C7 counterexample: patching the record `a = 1` with `a = 1` changes no
record's contents, yet `update` returns a count of 1 — the returned count
is the number of matched records the patch was applied to, not the number
of records actually changed. -/
theorem C7_count_without_change_counterexample :
    update1 [[("a", Value.vInt 1)]] [("a", Clause.plain (Value.vInt 1))]
        [("a", Value.vInt 1)] false
      = ([[("a", Value.vInt 1)]], 1) := by
  decide

/-- C7 (amended): `update` with `multiple = false` patches at most one
record — the first match in iteration order — and with `multiple = true`
patches all matches; the returned count is the number of matched records
the patch was applied to (1 or 0 in the single case), whether or not their
contents changed. -/
theorem C7_update_first_match_and_count
    (data : List Record) (q : Query) (patch : Record) :
    (update1 data q patch true).2 =
      data.countP (fun r => itemMatchesQuery r q) ∧
    (update1 data q patch true).1 =
      data.map (fun r => if itemMatchesQuery r q then applyPatch r patch else r) ∧
    (update1 data q patch false).2 =
      (if data.any (fun r => itemMatchesQuery r q) then 1 else 0) ∧
    (update1 data q patch false).1 =
      (match data.dropWhile (fun r => !(itemMatchesQuery r q)) with
       | [] => data
       | m :: post =>
         data.takeWhile (fun r => !(itemMatchesQuery r q)) ++
           applyPatch m patch :: post) :=
  ⟨by rw [update1_true_spec],
   by rw [update1_true_spec],
   update1_false_count data q patch,
   update1_false_list data q patch⟩

/-- C7 witness. -/
theorem C7_update_first_match_and_count_witness :
    (update1 [[("a", Value.vInt 2)], [("a", Value.vInt 1)]]
        [("a", Clause.plain (Value.vInt 1))] [("b", Value.vInt 9)] false).2 =
      (if List.any [[("a", Value.vInt 2)], [("a", Value.vInt 1)]]
          (fun r => itemMatchesQuery r [("a", Clause.plain (Value.vInt 1))])
        then 1 else 0) :=
  (C7_update_first_match_and_count [[("a", Value.vInt 2)], [("a", Value.vInt 1)]]
    [("a", Clause.plain (Value.vInt 1))] [("b", Value.vInt 9)]).2.2.1

/-- C8: a record contributes 1 to the water-rescue count exactly when it is
a Dog of a water-rescue breed with sex Intact Female and either no age value
(missing or `None`) or a parseable age in [26, 156] weeks; concretely, the
200-week Labrador Retriever Mix Intact Female is excluded and the 52-week
one is included (and the 200-week dog fails only the age window). -/
theorem C8_water_rescue_eligibility :
    (∀ (data : List Record) (item : Record),
      countWaterRescueDogs (item :: data) =
        (if isWaterBase item &&
            (match pyGet item "age_upon_outcome_in_weeks" with
             | Value.vNone => true
             | v =>
               match pyFloat v with
               | some a => decide ((26 : ℚ) ≤ a ∧ a ≤ 156)
               | none => false) then 1 else 0) +
          countWaterRescueDogs data) ∧
    countWaterRescueDogs [waterDog200] = 0 ∧
    countWaterRescueDogs [waterDog52] = 1 ∧
    isWaterBase waterDog200 = true := by
  refine ⟨fun data item => ?_, by decide, by decide, by decide⟩
  rw [countWaterRescueDogs]
  congr 1
  rw [rescueAgeContribution_eq_if]
  by_cases hb : isWaterBase item <;> simp [hb]

/-- C9: with the backing store unavailable, each aggregation is a constant
function of its arguments — monthly trends return the same payload for
every `months` value, and every aggregation returns exactly its designated
mock payload. -/
theorem C9_demo_aggregations_constant :
    (∀ m m' : ℕ, getMonthlyAdoptionTrendsDemo m = getMonthlyAdoptionTrendsDemo m') ∧
    (∀ m : ℕ, getMonthlyAdoptionTrendsDemo m = mockAdoptionTrends) ∧
    getBreedPerformanceMetricsDemo = mockBreedPerformance ∧
    getRescueTypeAnalyticsDemo = mockRescueAnalytics ∧
    getAnimalDemographicsDemo = mockDemographics :=
  ⟨fun _ _ => rfl, fun _ => rfl, rfl, rfl, rfl⟩

/-- C10: in the water and disaster rescue counters, a record meeting the
breed/type/sex criteria counts when its age field is missing (or `None`),
but does NOT count when the age field is present yet fails numeric
coercion — present-but-unparseable and missing ages are treated
oppositely. -/
theorem C10_unparseable_vs_missing_age (item : Record) :
    (isWaterBase item = true →
      pyGet item "age_upon_outcome_in_weeks" = Value.vNone →
      countWaterRescueDogs [item] = 1) ∧
    (∀ v : Value, isWaterBase item = true →
      pyGet item "age_upon_outcome_in_weeks" = v → v ≠ Value.vNone →
      pyFloat v = none → countWaterRescueDogs [item] = 0) ∧
    (isDisasterBase item = true →
      pyGet item "age_upon_outcome_in_weeks" = Value.vNone →
      countDisasterRescueDogs [item] = 1) ∧
    (∀ v : Value, isDisasterBase item = true →
      pyGet item "age_upon_outcome_in_weeks" = v → v ≠ Value.vNone →
      pyFloat v = none → countDisasterRescueDogs [item] = 0) := by
  refine ⟨fun hb hv => ?_, fun v hb hv hne hf => ?_,
    fun hb hv => ?_, fun v hb hv hne hf => ?_⟩
  · simp [countWaterRescueDogs, hb, rescueAgeContribution, hv]
  · rcases v with s | n | qq | _
    · simp [countWaterRescueDogs, hb, rescueAgeContribution, hv, hf]
    · simp [countWaterRescueDogs, hb, rescueAgeContribution, hv, hf]
    · simp [countWaterRescueDogs, hb, rescueAgeContribution, hv, hf]
    · exact absurd rfl hne
  · simp [countDisasterRescueDogs, hb, rescueAgeContribution, hv]
  · rcases v with s | n | qq | _
    · simp [countDisasterRescueDogs, hb, rescueAgeContribution, hv, hf]
    · simp [countDisasterRescueDogs, hb, rescueAgeContribution, hv, hf]
    · simp [countDisasterRescueDogs, hb, rescueAgeContribution, hv, hf]
    · exact absurd rfl hne

/-- C10 witness. -/
theorem C10_unparseable_vs_missing_age_witness :
    countWaterRescueDogs [waterDogNoAge] = 1 ∧
    countWaterRescueDogs [waterDogBadAge] = 0 ∧
    countDisasterRescueDogs [disasterDogNoAge] = 1 ∧
    countDisasterRescueDogs [disasterDogBadAge] = 0 :=
  ⟨(C10_unparseable_vs_missing_age waterDogNoAge).1 (by decide) (by decide),
   (C10_unparseable_vs_missing_age waterDogBadAge).2.1
     (Value.vStr "unknown") (by decide) (by decide) (by decide) (by decide),
   (C10_unparseable_vs_missing_age disasterDogNoAge).2.2.1 (by decide) (by decide),
   (C10_unparseable_vs_missing_age disasterDogBadAge).2.2.2
     (Value.vStr "unknown") (by decide) (by decide) (by decide) (by decide)⟩

end AnimalShelter
